import Mathlib

/-!
Verification of the invocation-caching-and-retry layer and the staged
fan-out orchestrator of the AICompaniesSeriousness repository.

The Python sources are shallowly embedded as executable Lean definitions:

* `Json`, `json_loads`, `extract_json` embed `BaseAgent.extract_json`
  (src/agents/base_agent.py) together with the JSON decoding it relies on.
* `Cache.get_cache_key`, `Cache.get`, `Cache.set` embed src/utils/cache.py.
* `callApiWithRetry` embeds `BaseAgent._call_api_with_retry`.
* `invoke` embeds `BaseAgent.invoke`.
* `TokenUsage`, `TokenCounter` embed src/utils/token_counter.py.
* `locate_documents`, `analyze_documents`, `phase_2_analyze_companies`
  embed the stage workers and `MultiAgentOrchestrator._phase_2_analyze_companies`.

Exceptions raised by the Python code are modelled with `Except`; the wall
clock (`datetime.now()`) is an explicit `Int` parameter; the external
text-generation service is an oracle mapping (prompt, 0-based attempt
index) to an outcome.
-/

/-- Left curly brace character (written via its code point). -/
def lbrace : Char := Char.ofNat 123

/-- Right curly brace character (written via its code point). -/
def rbrace : Char := Char.ofNat 125

/-- JSON values as produced by Python's `json.loads`.  Numeric literals are
modelled as integers: every number the analysed code manufactures or reads
(`gen_ai_mentions`, `ml_mentions`, token counts) is integral, and
fractional payloads are outside the behaviour any claim exercises. -/
inductive Json where
  | null : Json
  | bool (b : Bool) : Json
  | num (n : Int) : Json
  | str (s : String) : Json
  | arr (elems : List Json) : Json
  | obj (fields : List (String × Json)) : Json

/-- Python dict lookup `d[k]` over a parsed JSON object: later duplicate
keys win, as in CPython's `json.loads`, hence the reverse scan. -/
def jsonField (j : Json) (k : String) : Option Json :=
  match j with
  | .obj fields => (fields.reverse.find? (fun p => p.1 == k)).map (fun p => p.2)
  | _ => none

/-- Python `d.get(k, default)` over the field list of a JSON object. -/
def jsonGetD (fields : List (String × Json)) (k : String) (d : Json) : Json :=
  ((fields.reverse.find? (fun p => p.1 == k)).map (fun p => p.2)).getD d

/-- Python truthiness of a JSON value (`bool(v)`). -/
def jsonTruthy (j : Json) : Bool :=
  match j with
  | .null => false
  | .bool b => b
  | .num n => n != 0
  | .str s => !s.isEmpty
  | .arr elems => !elems.isEmpty
  | .obj fields => !fields.isEmpty

/-- Python `str()` rendering of a JSON value, as used by f-strings in the
context-building code.  Structured values render in Python repr style. -/
def Json.render : Json → String
  | .null => "None"
  | .bool b => if b then "True" else "False"
  | .num n => toString n
  | .str s => s
  | .arr elems =>
      "[" ++ String.intercalate ", " (elems.attach.map (fun x => x.1.render)) ++ "]"
  | .obj fields =>
      String.singleton lbrace ++
        String.intercalate ", "
          (fields.attach.map (fun x => x.1.1 ++ ": " ++ x.1.2.render)) ++
        String.singleton rbrace
  decreasing_by
  · have hm := List.sizeOf_lt_of_mem x.2
    simp only [Json.arr.sizeOf_spec]
    omega
  · have hm := List.sizeOf_lt_of_mem x.2
    have hs : sizeOf x.1.2 < sizeOf x.1 := by
      cases x.1 with
      | mk a b => simp
    simp only [Json.obj.sizeOf_spec]
    omega

/-- JSON whitespace, as accepted by Python's `json` module. -/
def isJsonWs (c : Char) : Bool :=
  c = ' ' || c = '\t' || c = '\n' || c = '\r'

/-- Drop leading JSON whitespace. -/
def skipWs : List Char → List Char
  | [] => []
  | c :: cs => if isJsonWs c then skipWs cs else c :: cs

/-- Value of a hexadecimal digit. -/
def hexVal (c : Char) : Option Nat :=
  if '0' ≤ c && c ≤ '9' then some (c.toNat - 48)
  else if 'a' ≤ c && c ≤ 'f' then some (c.toNat - 87)
  else if 'A' ≤ c && c ≤ 'F' then some (c.toNat - 55)
  else none

/-- Parse the body of a JSON string literal (the opening quote already
consumed), returning the decoded string and the remaining input. -/
def parseJStringAux : Nat → List Char → String → Option (String × List Char)
  | 0, _, _ => none
  | _ + 1, [], _ => none
  | fuel + 1, c :: cs, acc =>
    if c = '"' then some (acc, cs)
    else if c = '\\' then
      match cs with
      | [] => none
      | e :: cs2 =>
        if e = '"' then parseJStringAux fuel cs2 (acc.push '"')
        else if e = '\\' then parseJStringAux fuel cs2 (acc.push '\\')
        else if e = '/' then parseJStringAux fuel cs2 (acc.push '/')
        else if e = 'b' then parseJStringAux fuel cs2 (acc.push (Char.ofNat 8))
        else if e = 'f' then parseJStringAux fuel cs2 (acc.push (Char.ofNat 12))
        else if e = 'n' then parseJStringAux fuel cs2 (acc.push '\n')
        else if e = 'r' then parseJStringAux fuel cs2 (acc.push '\r')
        else if e = 't' then parseJStringAux fuel cs2 (acc.push '\t')
        else if e = 'u' then
          match cs2 with
          | h1 :: h2 :: h3 :: h4 :: cs3 =>
            match hexVal h1, hexVal h2, hexVal h3, hexVal h4 with
            | some v1, some v2, some v3, some v4 =>
                parseJStringAux fuel cs3
                  (acc.push (Char.ofNat (((v1 * 16 + v2) * 16 + v3) * 16 + v4)))
            | _, _, _, _ => none
          | _ => none
        else none
    else parseJStringAux fuel cs (acc.push c)

/-- Split off a run of decimal digits. -/
def spanDigits : List Char → List Char × List Char
  | [] => ([], [])
  | c :: cs =>
    if c.isDigit then
      let r := spanDigits cs
      (c :: r.1, r.2)
    else ([], c :: cs)

/-- Digit run to a natural number. -/
def digitsToNat (ds : List Char) : Nat :=
  ds.foldl (fun n c => n * 10 + (c.toNat - 48)) 0

mutual

/-- Recursive-descent JSON value parser (fuel-bounded), embedding the
grammar accepted by `json.loads` on the integral fragment. -/
def parseJValue : Nat → List Char → Option (Json × List Char)
  | 0, _ => none
  | fuel + 1, cs0 =>
    match skipWs cs0 with
    | [] => none
    | c :: cs =>
      if c = '"' then
        (parseJStringAux (fuel + 1) cs "").map (fun p => (Json.str p.1, p.2))
      else if c = lbrace then
        parseJMembers fuel (skipWs cs) true []
      else if c = '[' then
        parseJElems fuel (skipWs cs) true []
      else if c = 't' then
        match cs with
        | 'r' :: 'u' :: 'e' :: rest => some (Json.bool true, rest)
        | _ => none
      else if c = 'f' then
        match cs with
        | 'a' :: 'l' :: 's' :: 'e' :: rest => some (Json.bool false, rest)
        | _ => none
      else if c = 'n' then
        match cs with
        | 'u' :: 'l' :: 'l' :: rest => some (Json.null, rest)
        | _ => none
      else if c = '-' then
        match spanDigits cs with
        | ([], _) => none
        | (ds, rest) => some (Json.num (-(digitsToNat ds : Int)), rest)
      else if c.isDigit then
        match spanDigits (c :: cs) with
        | (ds, rest) => some (Json.num (digitsToNat ds : Int), rest)
      else none

/-- Parse array elements after the opening bracket (whitespace skipped);
`first` is true until one element has been read. -/
def parseJElems : Nat → List Char → Bool → List Json → Option (Json × List Char)
  | 0, _, _, _ => none
  | fuel + 1, cs, first, acc =>
    match cs with
    | ']' :: rest =>
      if first then some (Json.arr acc.reverse, rest)
      else none
    | _ =>
      match parseJValue fuel cs with
      | none => none
      | some (v, rest) =>
        match skipWs rest with
        | ',' :: rest2 => parseJElemsTail fuel (skipWs rest2) (v :: acc)
        | ']' :: rest2 => some (Json.arr (v :: acc).reverse, rest2)
        | _ => none

/-- Continue array elements after a comma. -/
def parseJElemsTail : Nat → List Char → List Json → Option (Json × List Char)
  | 0, _, _ => none
  | fuel + 1, cs, acc =>
    match parseJValue fuel cs with
    | none => none
    | some (v, rest) =>
      match skipWs rest with
      | ',' :: rest2 => parseJElemsTail fuel (skipWs rest2) (v :: acc)
      | ']' :: rest2 => some (Json.arr (v :: acc).reverse, rest2)
      | _ => none

/-- Parse object members after the opening brace (whitespace skipped). -/
def parseJMembers : Nat → List Char → Bool → List (String × Json) →
    Option (Json × List Char)
  | 0, _, _, _ => none
  | fuel + 1, cs, first, acc =>
    match cs with
    | c :: rest =>
      if c = rbrace && first then some (Json.obj acc.reverse, rest)
      else if c = '"' then
        match parseJStringAux (fuel + 1) rest "" with
        | none => none
        | some (k, rest2) =>
          match skipWs rest2 with
          | ':' :: rest3 =>
            match parseJValue fuel rest3 with
            | none => none
            | some (v, rest4) =>
              match skipWs rest4 with
              | ',' :: rest5 => parseJMembers fuel (skipWs rest5) false ((k, v) :: acc)
              | d :: rest5 =>
                if d = rbrace then some (Json.obj ((k, v) :: acc).reverse, rest5)
                else none
              | _ => none
          | _ => none
      else none
    | [] => none

end

/-- Embeds Python `json.loads`: parse one JSON document and require only
trailing whitespace afterwards; `none` models `json.JSONDecodeError`. -/
def json_loads (s : String) : Option Json :=
  match parseJValue (2 * s.length + 4) s.data with
  | some (j, rest) => if (skipWs rest).isEmpty then some j else none
  | none => none

/-- Index of the first occurrence of `c` (Python `str.find`, `none` for -1). -/
def firstIdxOf (c : Char) (cs : List Char) : Option Nat :=
  cs.findIdx? (fun d => d == c)

/-- Index of the last occurrence of `c` (Python `str.rfind`, `none` for -1). -/
def lastIdxOf (c : Char) (cs : List Char) : Option Nat :=
  (cs.reverse.findIdx? (fun d => d == c)).map (fun k => cs.length - 1 - k)

/-- The bracket-slice fallback of `BaseAgent.extract_json`: take the
substring from the first `openC` to the last `closeC` (inclusive) and try
to decode it; Python's guard `start != -1 and end > start`. -/
def extractBracketed (openC closeC : Char) (cs : List Char) : Option Json :=
  match firstIdxOf openC cs, lastIdxOf closeC cs with
  | some s, some e =>
    if e + 1 > s then json_loads (String.mk ((cs.drop s).take (e + 1 - s)))
    else none
  | _, _ => none

/-- Embeds `BaseAgent.extract_json` (src/agents/base_agent.py lines
181-215): try direct decoding, then the first-to-last curly-brace slice,
then the first-to-last square-bracket slice, else `none`. -/
def extract_json (text : String) : Option Json :=
  match json_loads text with
  | some j => some j
  | none =>
    match extractBracketed lbrace rbrace text.data with
    | some j => some j
    | none => extractBracketed '[' ']' text.data

example : extract_json "no structured output here" = none := by rfl

example :
    extract_json "noise \x7b\"a\": 3\x7d noise" = some (Json.obj [("a", Json.num 3)]) := by
  rfl

example : json_loads "[1, -2, true]" = some (Json.arr [.num 1, .num (-2), .bool true]) := by
  rfl

/-- Lower-case hexadecimal digit. -/
def hexDigit (n : Nat) : Char :=
  if n < 10 then Char.ofNat (48 + n) else Char.ofNat (87 + n)

/-- Four-digit hexadecimal rendering used by JSON `\uXXXX` escapes. -/
def hex4 (n : Nat) : String :=
  String.mk [hexDigit (n / 4096 % 16), hexDigit (n / 256 % 16),
             hexDigit (n / 16 % 16), hexDigit (n % 16)]

/-- Escaping of one character as performed by `json.dumps` with its default
`ensure_ascii=True`: short escapes for the usual controls, `\uXXXX` for the
remaining controls and all non-ASCII characters (surrogate pairs beyond the
basic multilingual plane). -/
def jsonEscapeChar (c : Char) : String :=
  let n := c.toNat
  if c = '"' then "\\\""
  else if c = '\\' then "\\\\"
  else if c = '\n' then "\\n"
  else if c = '\t' then "\\t"
  else if c = '\r' then "\\r"
  else if n = 8 then "\\b"
  else if n = 12 then "\\f"
  else if n < 32 then "\\u" ++ hex4 n
  else if n < 128 then String.singleton c
  else if n < 65536 then "\\u" ++ hex4 n
  else
    "\\u" ++ hex4 (55296 + (n - 65536) / 1024) ++
    "\\u" ++ hex4 (56320 + (n - 65536) % 1024)

/-- JSON string literal serialization (`json.dumps` of a Python `str`). -/
def jsonStrLit (s : String) : String :=
  "\"" ++ String.join (s.data.map jsonEscapeChar) ++ "\""

/-- Order on keyword parameters by parameter name, the order in which
`json.dumps(..., sort_keys=True)` emits the members of a dict. -/
def keyLe (a b : String × String) : Prop := a.1 ≤ b.1

instance : DecidableRel keyLe := fun a b => inferInstanceAs (Decidable (a.1 ≤ b.1))

instance : IsTotal (String × String) keyLe := ⟨fun a b => le_total a.1 b.1⟩

instance : IsTrans (String × String) keyLe := ⟨fun _ _ _ h1 h2 => le_trans h1 h2⟩

/-- Keyword parameters in the order `sort_keys=True` serializes them. -/
def sortByKey (kwargs : List (String × String)) : List (String × String) :=
  List.insertionSort keyLe kwargs

/-- Embeds `Cache._get_cache_key` (src/utils/cache.py lines 24-31): the
canonical string `json.dumps({'args': args, 'kwargs': kwargs},
sort_keys=True)` over the positional and keyword key parts.  The Python
code then applies `hashlib.md5(...).hexdigest()`; md5 is a fixed
deterministic function of this string alone, so the determinism and
order-canonicalization properties of the digest are exactly those of this
canonical pre-image, which the digest factors through. -/
def Cache.get_cache_key (args : List String) (kwargs : List (String × String)) : String :=
  String.singleton lbrace ++ "\"args\": [" ++
    String.intercalate ", " (args.map jsonStrLit) ++
    "], \"kwargs\": " ++ String.singleton lbrace ++
    String.intercalate ", "
      ((sortByKey kwargs).map (fun p => jsonStrLit p.1 ++ ": " ++ jsonStrLit p.2)) ++
    String.singleton rbrace ++ String.singleton rbrace

/-- A cache directory: one record per cache key holding the write
timestamp and the stored value.  Time is measured in hours, matching
`ttl = timedelta(hours=ttl_hours)`. -/
abbrev CacheState (α : Type) := List (String × Int × α)

/-- Embeds `Cache.get` (src/utils/cache.py lines 37-58): compute the key,
miss when the record is absent, lazily delete and miss when the record is
older than the TTL (strict `>`), otherwise return the value.  Returns the
possibly shrunk store alongside the result. -/
def Cache.get (ttl : Nat) (now : Int) (st : CacheState α) (args : List String)
    (kwargs : List (String × String)) : Option α × CacheState α :=
  let key := Cache.get_cache_key args kwargs
  match st.find? (fun p => p.1 == key) with
  | none => (none, st)
  | some (_, ts, v) =>
    if now - ts > (ttl : Int) then (none, st.filter (fun p => p.1 != key))
    else (some v, st)

/-- Embeds `Cache.set` (src/utils/cache.py lines 60-71): write the value
under the key with the current timestamp, replacing any prior record.
`writeOk = false` models an `OSError` from opening or writing the record,
which `Cache.set` does not catch and therefore propagates to its caller. -/
def Cache.set (writeOk : Bool) (now : Int) (st : CacheState α) (v : α)
    (args : List String) (kwargs : List (String × String)) :
    Except Unit (CacheState α) :=
  if writeOk then
    let key := Cache.get_cache_key args kwargs
    .ok ((key, now, v) :: st.filter (fun p => p.1 != key))
  else .error ()

/-- Two lists of keyword parameters that are permutations of each other,
both sorted by parameter name, with no duplicate names, are equal. -/
theorem sorted_perm_nodupkeys_eq :
    ∀ (l1 l2 : List (String × String)), l1.Perm l2 →
      l1.Sorted keyLe → l2.Sorted keyLe → (l1.map Prod.fst).Nodup → l1 = l2 := by
  intro l1
  induction l1 with
  | nil =>
    intro l2 hp _ _ _
    exact hp.nil_eq
  | cons a t ih =>
    intro l2 hp hs1 hs2 hnd
    cases l2 with
    | nil => exact absurd hp.eq_nil (by simp)
    | cons b t2 =>
      have hmem_a : a ∈ b :: t2 := hp.mem_iff.mp (List.mem_cons_self a t)
      have hmem_b : b ∈ a :: t := hp.symm.mem_iff.mp (List.mem_cons_self b t2)
      rw [List.map_cons, List.nodup_cons] at hnd
      have hab : a = b := by
        rcases List.mem_cons.mp hmem_a with h | ha2
        · exact h
        rcases List.mem_cons.mp hmem_b with h | hb2
        · exact h.symm
        have h1 : keyLe b a := List.rel_of_sorted_cons hs2 a ha2
        have h2 : keyLe a b := List.rel_of_sorted_cons hs1 b hb2
        have hk : a.1 = b.1 := le_antisymm h2 h1
        exfalso
        have hmap : a.1 ∈ t.map Prod.fst := by
          rw [hk]
          exact List.mem_map_of_mem Prod.fst hb2
        exact hnd.1 hmap
      subst hab
      have ht : t.Perm t2 := hp.cons_inv
      have hrec := ih t2 ht hs1.of_cons hs2.of_cons hnd.2
      rw [hrec]

/-- Outcome of one call to the external text-generation service: a
response with token usage, a `RateLimitError`, or any other exception. -/
inductive ApiOutcome where
  | success (text : String) (input_tokens output_tokens : Nat) : ApiOutcome
  | rateLimit : ApiOutcome
  | terminal : ApiOutcome

/-- Exceptions that can escape the embedded code: `RateLimitError` after
retry exhaustion, any other service exception, the defensive
`RuntimeError` at the end of `_call_api_with_retry`, an `OSError` from a
cache write, and the `TypeError`/`KeyError` a malformed work descriptor
would raise in the orchestrator loop. -/
inductive InvokeError where
  | rateLimited : InvokeError
  | terminal : InvokeError
  | noResponse : InvokeError
  | ioError : InvokeError
  | typeError : InvokeError
  | keyError : InvokeError
deriving DecidableEq

instance {ε α : Type} [DecidableEq ε] [DecidableEq α] : DecidableEq (Except ε α) :=
  fun x y =>
    match x, y with
    | .ok a, .ok b =>
      if h : a = b then .isTrue (congrArg Except.ok h)
      else .isFalse (fun hc => h (Except.ok.inj hc))
    | .error a, .error b =>
      if h : a = b then .isTrue (congrArg Except.error h)
      else .isFalse (fun hc => h (Except.error.inj hc))
    | .ok _, .error _ => .isFalse (fun hc => Except.noConfusion hc)
    | .error _, .ok _ => .isFalse (fun hc => Except.noConfusion hc)

/-- Observable trace of `_call_api_with_retry`: how many times the
external service was called, the sleeps performed between attempts (in
seconds), and the returned triple or the exception raised. -/
structure RetryTrace where
  attempts : Nat
  sleeps : List Nat
  outcome : Except InvokeError (String × Nat × Nat)
deriving DecidableEq

/-- One iteration onwards of the `for attempt in range(max_retries)` loop
of `_call_api_with_retry`, at 0-based attempt index `attempt`; `fuel`
counts the iterations the range still allows, so the loop is entered with
`fuel = maxRetries` and `attempt = 0`.  A success returns immediately; a
`RateLimitError` sleeps `retryDelay * (attempt + 1)` seconds and retries
while `attempt < maxRetries - 1`, else re-raises; any other exception is
re-raised at once.  Exhausted fuel is the fall-through after the loop,
reachable only when `maxRetries = 0`, where `last_exception` is `None`
and a `RuntimeError` is raised. -/
def callApiRetryAux (svc : Nat → ApiOutcome) (maxRetries retryDelay : Nat) :
    Nat → Nat → RetryTrace
  | 0, _ => ⟨0, [], .error .noResponse⟩
  | fuel + 1, attempt =>
    match svc attempt with
    | .success t i o => ⟨1, [], .ok (t, i, o)⟩
    | .rateLimit =>
      if attempt < maxRetries - 1 then
        let r := callApiRetryAux svc maxRetries retryDelay fuel (attempt + 1)
        ⟨r.attempts + 1, retryDelay * (attempt + 1) :: r.sleeps, r.outcome⟩
      else ⟨1, [], .error .rateLimited⟩
    | .terminal => ⟨1, [], .error .terminal⟩

/-- Embeds `BaseAgent._call_api_with_retry` (src/agents/base_agent.py
lines 118-179) against a service oracle indexed by 0-based attempt. -/
def callApiWithRetry (svc : Nat → ApiOutcome) (maxRetries retryDelay : Nat) :
    RetryTrace :=
  callApiRetryAux svc maxRetries retryDelay maxRetries 0

example :
    callApiWithRetry (fun _ => ApiOutcome.rateLimit) 3 2 =
      ⟨3, [2, 4], .error .rateLimited⟩ := by
  rfl

/-- Embeds `BaseAgent._build_prompt` (src/agents/base_agent.py lines
99-116): role, then the context section when `context` is truthy, then
the task section, joined by blank lines. -/
def build_prompt (role prompt context : String) : String :=
  let parts :=
    [role] ++
    (if context.isEmpty then [] else ["\nContext:\n" ++ context]) ++
    ["\nTask:\n" ++ prompt]
  String.intercalate "\n\n" parts

/-- The dict an agent stores in the cache on a successful call. -/
structure CachedResponse where
  text : String
  input_tokens : Nat
  output_tokens : Nat
deriving DecidableEq

/-- Per-agent configuration as read from `Settings` by the agents:
whether caching is enabled (when disabled the orchestrator also passes no
cache instance, so one flag models both `Settings.ENABLE_CACHING` and
`self.cache`), whether cache-file writes succeed, the cache TTL in hours,
the current wall-clock time in hours, and the retry settings. -/
structure AgentConfig where
  enableCaching : Bool
  writeOk : Bool
  ttl : Nat
  now : Int
  maxRetries : Nat
  retryDelay : Nat

/-- Result of one `BaseAgent.invoke`: the cache store afterwards, the
returned triple or the raised exception, and how many times the external
service was actually called. -/
structure InvokeOutput where
  state : CacheState CachedResponse
  result : Except InvokeError (String × Nat × Nat)
  calls : Nat
deriving DecidableEq

/-- The keyword key parts every agent passes to `Cache.get`/`Cache.set`. -/
def cacheKwargs (agentName prompt context : String) : List (String × String) :=
  [("agent_name", agentName), ("prompt", prompt), ("context", context)]

/-- Embeds `BaseAgent.invoke` (src/agents/base_agent.py lines 46-97).
When caching applies, a hit returns `(text, 0, 0)` with no service call;
on a miss the full prompt is built and the service called through the
retry loop, and a success is written back to the cache before being
returned (a failing cache write raises out of `invoke`, since neither
`Cache.set` nor `invoke` catches `OSError`). -/
def invoke (cfg : AgentConfig) (st : CacheState CachedResponse)
    (agentName role prompt context : String) (useCache : Bool)
    (svc : String → Nat → ApiOutcome) : InvokeOutput :=
  let kwargs := cacheKwargs agentName prompt context
  let useC := useCache && cfg.enableCaching
  let looked := if useC then Cache.get cfg.ttl cfg.now st [] kwargs else (none, st)
  match looked with
  | (some c, st1) => ⟨st1, .ok (c.text, 0, 0), 0⟩
  | (none, st1) =>
    let full := build_prompt role prompt context
    let tr := callApiWithRetry (svc full) cfg.maxRetries cfg.retryDelay
    match tr.outcome with
    | .error e => ⟨st1, .error e, tr.attempts⟩
    | .ok (t, i, o) =>
      if useC then
        match Cache.set cfg.writeOk cfg.now st1 ⟨t, i, o⟩ [] kwargs with
        | .ok st2 => ⟨st2, .ok (t, i, o), tr.attempts⟩
        | .error _ => ⟨st1, .error .ioError, tr.attempts⟩
      else ⟨st1, .ok (t, i, o), tr.attempts⟩

/-- Embeds the `TokenUsage` dataclass (src/utils/token_counter.py). -/
structure TokenUsage where
  input_tokens : Nat
  output_tokens : Nat
  total_tokens : Nat
deriving DecidableEq

/-- Embeds `TokenUsage.add` (src/utils/token_counter.py lines 14-18). -/
def TokenUsage.add (u : TokenUsage) (input_tokens output_tokens : Nat) : TokenUsage :=
  ⟨u.input_tokens + input_tokens, u.output_tokens + output_tokens,
   u.total_tokens + (input_tokens + output_tokens)⟩

/-- Embeds the `TokenCounter` dataclass: the per-agent usage dict (an
insertion-ordered association list with unique keys, as a Python dict)
and the global total. -/
structure TokenCounter where
  usage_by_agent : List (String × TokenUsage)
  total_usage : TokenUsage
deriving DecidableEq

/-- A fresh `TokenCounter()`. -/
def TokenCounter.empty : TokenCounter := ⟨[], ⟨0, 0, 0⟩⟩

/-- Embeds `TokenCounter.track` (src/utils/token_counter.py lines 37-50):
insert a zero-initialized record on first use of the agent name, then add
the increments to that record and to the global total.  The `model`
argument is accepted and unused, as in the source. -/
def TokenCounter.track (tc : TokenCounter) (agent_name _model : String)
    (input_tokens output_tokens : Nat) : TokenCounter :=
  let m0 :=
    if tc.usage_by_agent.any (fun p => p.1 == agent_name) then tc.usage_by_agent
    else tc.usage_by_agent ++ [(agent_name, ⟨0, 0, 0⟩)]
  { usage_by_agent :=
      m0.map (fun p =>
        if p.1 == agent_name then (p.1, p.2.add input_tokens output_tokens) else p),
    total_usage := tc.total_usage.add input_tokens output_tokens }

/-- Dict lookup `usage_by_agent[agent_name]` as an option. -/
def TokenCounter.lookup (tc : TokenCounter) (agent_name : String) : Option TokenUsage :=
  (tc.usage_by_agent.find? (fun p => p.1 == agent_name)).map (fun p => p.2)

/-- `Settings.SUB_AGENT_MODEL` default. -/
def SUB_AGENT_MODEL : String := "claude-sonnet-4-5-20250929"

/-- Role text of `LeadAgent` (src/agents/lead_agent.py). -/
def leadRole : String :=
  "You are a lead financial research agent responsible for locating company documents.\n\n" ++
  "Your tasks:\n1. Identify the most recent fiscal year for each company\n" ++
  "2. Provide SEC EDGAR URLs for 10-K filings\n3. Provide investor relations URLs\n" ++
  "4. Provide earnings call transcript URLs if available\n\n" ++
  "IMPORTANT: Output ONLY valid JSON. No markdown, no explanations."

/-- Prompt built by `LeadAgent.locate_documents`; the numbered
instructions and the JSON example are abridged to their opening words
(prompt prose is templated string assembly, out of scope per spec, and no
verified property depends on its wording). -/
def leadPrompt (companies : List String) : String :=
  "Locate the most recent 10-K filings and earnings call transcripts for these companies:\n" ++
  String.intercalate ", " companies ++
  "\n\nFor EACH company, provide:\n1. Company name (exactly as provided)\n" ++
  "...\n\nReturn as a JSON array with this EXACT structure:\n[\n  \x7b\n" ++
  "    \"company\": \"Oracle\",\n    ...\n  \x7d\n]\n\n" ++
  "Output ONLY the JSON array, nothing else."

/-- The deterministic default descriptor `LeadAgent.locate_documents`
substitutes for one company when the response cannot be decoded
(src/agents/lead_agent.py lines 84-95). -/
def default_descriptor (company : String) : Json :=
  .obj [("company", .str company),
        ("ticker", .str "N/A"),
        ("fiscal_year_end", .str "2024"),
        ("tenk_url", .str ("https://www.sec.gov/cgi-bin/browse-edgar?company=" ++ company)),
        ("investor_relations_url", .str "N/A"),
        ("earnings_transcript_url", .str "N/A")]

/-- Result of one stage-worker method: the cache store afterwards, the
returned value or raised exception, and the external service calls made. -/
structure StageResult (β : Type) where
  state : CacheState CachedResponse
  result : Except InvokeError β
  calls : Nat

/-- Embeds `LeadAgent.locate_documents` (src/agents/lead_agent.py lines
38-98): invoke once with caching, decode the response, and on decode
failure substitute the default descriptor for each requested company
instead of failing. -/
def locate_documents (cfg : AgentConfig) (st : CacheState CachedResponse)
    (companies : List String) (svc : String → Nat → ApiOutcome) :
    StageResult (Json × Nat × Nat) :=
  let out := invoke cfg st "LeadDocumentLocator" leadRole (leadPrompt companies) "" true svc
  match out.result with
  | .error e => ⟨out.state, .error e, out.calls⟩
  | .ok (t, i, o) =>
    let document_locations :=
      match extract_json t with
      | none => Json.arr (companies.map default_descriptor)
      | some j => j
    ⟨out.state, .ok (document_locations, i, o), out.calls⟩

/-- Role text of `CompanyAnalysisAgent` (src/agents/company_analysis_agent.py). -/
def analysisRole (company : String) : String :=
  "You are an expert financial analyst specializing in " ++ company ++ ".\n\n" ++
  "Your tasks:\n1. Count mentions of \"Generative AI\", \"Gen AI\", \"GenAI\" and similar terms\n" ++
  "2. Count mentions of \"Machine Learning\", \"ML\" and similar terms\n" ++
  "3. Extract specific Capital Expenditure (CapEx) numbers attributed to AI infrastructure\n" ++
  "4. Find ONE quote from CFO or CEO about ROI timeline for AI investments\n\n" ++
  "Be precise and cite specific numbers. Output ONLY valid JSON, no markdown."

/-- Knowledge-based analysis prompt of `analyze_documents` (the branch the
orchestrator always takes, since it passes no document content); the task
list and JSON template are abridged to their opening words. -/
def analysisPromptKnowledge (company : String) : String :=
  "Based on your knowledge of " ++ company ++ "'s recent public filings and statements:\n\n" ++
  "Tasks:\n1. Estimate mentions of \"Generative AI\" / \"Gen AI\" terminology...\n\n" ++
  "Output as JSON:\n\x7b\n  \"gen_ai_mentions\": <estimated number>,\n  ...\n\x7d"

/-- Content-based analysis prompt of `analyze_documents` (used when
document content is supplied; the content is truncated to 30000
characters by the caller); abridged like the knowledge prompt. -/
def analysisPromptContent (company content : String) : String :=
  "Analyze the following document content for " ++ company ++ ":\n\n" ++ content ++
  "\n\nTasks:\n1. Count ALL mentions of \"Generative AI\", \"Gen AI\", \"GenAI\"...\n\n" ++
  "Output as JSON:\n\x7b\n  \"gen_ai_mentions\": <number>,\n  ...\n\x7d"

/-- Context string built by `analyze_documents`: the company line, then
the document sources whose URL is truthy and not the string "N/A". -/
def analysisContext (company : String) (document_urls : List (String × Json)) : String :=
  let parts :=
    if document_urls.isEmpty then ["Analyzing: " ++ company]
    else
      ["Analyzing: " ++ company, "Document sources:"] ++
      document_urls.filterMap (fun p =>
        let isNA := match p.2 with | .str s => s == "N/A" | _ => false
        if jsonTruthy p.2 && !isNA then
          some ("  - " ++ p.1 ++ ": " ++ p.2.render)
        else none)
  String.intercalate "\n" parts

/-- Embeds the `CompanyAnalysis` dataclass.  Field values come from a
decoded JSON dict, which Python does not type-check, so they are `Json`. -/
structure CompanyAnalysis where
  company : String
  gen_ai_mentions : Json
  ml_mentions : Json
  capex_ai : Json
  cfo_quote : Json
  key_insights : Json
  documents_analyzed : List Json

/-- The placeholder dict `analyze_documents` substitutes when the
response cannot be decoded (src/agents/company_analysis_agent.py lines
138-144). -/
def errorData : List (String × Json) :=
  [("gen_ai_mentions", .num 0),
   ("ml_mentions", .num 0),
   ("capex_ai", .str "Error in analysis"),
   ("cfo_quote", .str "Error in analysis"),
   ("key_insights", .str "Analysis failed")]

/-- Construction of the `CompanyAnalysis` object from the decoded (or
placeholder) dict, with the source's `.get` defaults
(src/agents/company_analysis_agent.py lines 147-158). -/
def mkAnalysis (company : String) (data : List (String × Json))
    (document_urls : List (String × Json)) : CompanyAnalysis :=
  { company := company,
    gen_ai_mentions := jsonGetD data "gen_ai_mentions" (.num 0),
    ml_mentions := jsonGetD data "ml_mentions" (.num 0),
    capex_ai := jsonGetD data "capex_ai" (.str "Not disclosed"),
    cfo_quote := jsonGetD data "cfo_quote" (.str "No quote found"),
    key_insights := jsonGetD data "key_insights" (.str ""),
    documents_analyzed :=
      [jsonGetD document_urls "tenk_url" (.str ""),
       jsonGetD document_urls "earnings_transcript_url" (.str "")] }

/-- Embeds `CompanyAnalysisAgent.analyze_documents`
(src/agents/company_analysis_agent.py lines 58-165): build context and
prompt, invoke with caching, and decode.  A decode failure is replaced by
the error placeholder dict locally; an exception from `invoke` (terminal
service error, exhausted rate-limit retries, cache-write failure) is not
caught and propagates.  A decoded non-dict value would make `data.get`
raise `AttributeError`, modelled as `.typeError`. -/
def analyze_documents (cfg : AgentConfig) (st : CacheState CachedResponse)
    (company : String) (document_urls : List (String × Json))
    (document_content : Option String) (svc : String → Nat → ApiOutcome) :
    StageResult (CompanyAnalysis × Nat × Nat) :=
  let context := analysisContext company document_urls
  let prompt :=
    match document_content with
    | some c => analysisPromptContent company (c.take 30000)
    | none => analysisPromptKnowledge company
  let out := invoke cfg st (company ++ "Analyst") (analysisRole company) prompt context true svc
  match out.result with
  | .error e => ⟨out.state, .error e, out.calls⟩
  | .ok (t, i, o) =>
    match extract_json t with
    | some (Json.obj fields) =>
      ⟨out.state, .ok (mkAnalysis company fields document_urls, i, o), out.calls⟩
    | some _ => ⟨out.state, .error .typeError, out.calls⟩
    | none => ⟨out.state, .ok (mkAnalysis company errorData document_urls, i, o), out.calls⟩

/-- Observable outcome of phase 2: the aggregated analyses (or the
exception that aborted the loop), the cache store, the token counter and
the total number of external service calls made. -/
structure Phase2Output where
  result : Except InvokeError (List CompanyAnalysis)
  cache : CacheState CachedResponse
  counter : TokenCounter
  calls : Nat

/-- The loop body of `MultiAgentOrchestrator._phase_2_analyze_companies`
(src/orchestrator.py lines 115-145), from work item `idx` onwards: read
`doc_info['company']` (a missing key raises `KeyError`, a non-dict
descriptor `TypeError`), run that company's analysis agent, append the
analysis, and track tokens.  There is no exception handling: an exception
from any worker propagates and the remaining items are never processed. -/
def phase2Go (cfg : AgentConfig) (svc : Nat → String → Nat → ApiOutcome) :
    List Json → Nat → CacheState CachedResponse → TokenCounter → Nat → Phase2Output
  | [], _, st, tc, calls => ⟨.ok [], st, tc, calls⟩
  | doc :: rest, idx, st, tc, calls =>
    match doc with
    | .obj fields =>
      match (fields.reverse.find? (fun p => p.1 == "company")).map (fun p => p.2) with
      | none => ⟨.error .keyError, st, tc, calls⟩
      | some cj =>
        let company := cj.render
        let r := analyze_documents cfg st company fields none (svc idx)
        match r.result with
        | .error e => ⟨.error e, r.state, tc, calls + r.calls⟩
        | .ok (analysis, i, o) =>
          let tc2 := tc.track (company ++ "Analyst") SUB_AGENT_MODEL i o
          let out := phase2Go cfg svc rest (idx + 1) r.state tc2 (calls + r.calls)
          ⟨out.result.map (fun l => analysis :: l), out.cache, out.counter, out.calls⟩
    | _ => ⟨.error .typeError, st, tc, calls⟩

/-- Embeds `MultiAgentOrchestrator._phase_2_analyze_companies`: process
the work descriptors in submission order, starting from an initial cache
store and token counter. -/
def phase_2_analyze_companies (cfg : AgentConfig)
    (svc : Nat → String → Nat → ApiOutcome) (document_locations : List Json)
    (st : CacheState CachedResponse) (tc : TokenCounter) : Phase2Output :=
  phase2Go cfg svc document_locations 0 st tc 0

/-- C2: against a service that rate-limits every attempt, with
`max_retries = 3` the retry loop makes exactly 3 attempts, sleeps
`base * 1` after the first failed attempt and `base * 2` after the second
(linear in the 1-indexed attempt number), and then re-raises the
rate-limit error instead of returning a value. -/
theorem retry_exhaustion_three_attempts (svc : Nat → ApiOutcome)
    (h : ∀ n, svc n = ApiOutcome.rateLimit) (base : Nat) :
    callApiWithRetry svc 3 base =
      ⟨3, [base * 1, base * 2], .error .rateLimited⟩ := by
  simp [callApiWithRetry, callApiRetryAux, h]

theorem retry_exhaustion_three_attempts_witness :
    callApiWithRetry (fun _ => ApiOutcome.rateLimit) 3 2 =
      ⟨3, [2, 4], .error .rateLimited⟩ :=
  retry_exhaustion_three_attempts (fun _ => ApiOutcome.rateLimit) (fun _ => rfl) 2

/-- C7: a service failure of the non-rate-limit class on the first
attempt results in exactly 1 attempt and immediate propagation, with no
sleep and no retry consumed, for any positive configured maximum. -/
theorem terminal_failure_short_circuit (svc : Nat → ApiOutcome)
    (h0 : svc 0 = ApiOutcome.terminal) (maxRetries base : Nat)
    (hmr : 1 ≤ maxRetries) :
    callApiWithRetry svc maxRetries base = ⟨1, [], .error .terminal⟩ := by
  cases maxRetries with
  | zero => omega
  | succ k => simp [callApiWithRetry, callApiRetryAux, h0]

theorem terminal_failure_short_circuit_witness :
    callApiWithRetry (fun _ => ApiOutcome.terminal) 3 2 = ⟨1, [], .error .terminal⟩ :=
  terminal_failure_short_circuit (fun _ => ApiOutcome.terminal) rfl 3 2 (by omega)

/-- Updating every entry whose key matches commutes with `find?` on that
key (the update map only rewrites matching entries). -/
theorem find_map_update (l : List (String × TokenUsage)) (a : String)
    (f : String × TokenUsage → TokenUsage) :
    ((l.map (fun p => if p.1 == a then (p.1, f p) else p)).find?
        (fun p => p.1 == a)) =
      (l.find? (fun p => p.1 == a)).map (fun p => (p.1, f p)) := by
  induction l with
  | nil => rfl
  | cons x t ih =>
    by_cases hx : (x.1 == a) = true
    · rw [List.map_cons, if_pos hx]
      simp [hx]
    · have hx2 : (x.1 == a) = false := by
        simpa using hx
      rw [List.map_cons, if_neg hx]
      rw [List.find?_cons, List.find?_cons]
      simp only [hx2]
      exact ih

/-- `find?` skips a prefix in which nothing matches. -/
theorem find_append_of_none {β : Type} (l1 l2 : List β) (p : β → Bool)
    (h : l1.find? p = none) : (l1 ++ l2).find? p = l2.find? p := by
  rw [List.find?_append, h, Option.none_or]

/-- C10: `track` creates a zero-initialized record for a caller on first
use, adds every reported increment to that caller's record and to the
global total, and concretely tracking `(A, m, 100, 50)` then
`(A, m, 10, 5)` from a fresh counter yields a record for `A` with input
110, output 55 and total 165. -/
theorem token_counter_track_spec (tc : TokenCounter) (a m : String) (i o : Nat) :
    (tc.lookup a = none →
      (tc.track a m i o).lookup a = some ⟨i, o, i + o⟩) ∧
    (∀ u, tc.lookup a = some u →
      (tc.track a m i o).lookup a = some (u.add i o)) ∧
    (tc.track a m i o).total_usage = tc.total_usage.add i o ∧
    ((TokenCounter.empty.track a m 100 50).track a m 10 5).lookup a =
      some ⟨110, 55, 165⟩ := by
  refine ⟨?_, ?_, ?_, ?_⟩
  · intro hnone
    have hfind : tc.usage_by_agent.find? (fun p => p.1 == a) = none := by
      unfold TokenCounter.lookup at hnone
      cases hf : tc.usage_by_agent.find? (fun p => p.1 == a) with
      | none => rfl
      | some p =>
        rw [hf] at hnone
        simp at hnone
    have hany : tc.usage_by_agent.any (fun p => p.1 == a) = false := by
      rw [← Bool.not_eq_true, List.any_eq_true]
      rw [List.find?_eq_none] at hfind
      rintro ⟨x, hx, hpx⟩
      exact hfind x hx hpx
    simp only [TokenCounter.track, TokenCounter.lookup, hany, Bool.false_eq_true,
      if_false]
    rw [find_map_update, find_append_of_none _ _ _ hfind]
    simp [TokenUsage.add]
  · intro u hu
    unfold TokenCounter.lookup at hu
    obtain ⟨p, hp, hp2⟩ :
        ∃ p, tc.usage_by_agent.find? (fun q => q.1 == a) = some p ∧ p.2 = u := by
      cases hf : tc.usage_by_agent.find? (fun q => q.1 == a) with
      | none =>
        rw [hf] at hu
        simp at hu
      | some p =>
        rw [hf] at hu
        simp at hu
        exact ⟨p, rfl, hu⟩
    have hpa := List.find?_some hp
    have hany : tc.usage_by_agent.any (fun q => q.1 == a) = true := by
      rw [List.any_eq_true]
      exact ⟨p, List.mem_of_find?_eq_some hp, hpa⟩
    simp only [TokenCounter.track, TokenCounter.lookup, hany, if_true]
    rw [find_map_update, hp]
    simp [hp2]
  · simp [TokenCounter.track]
  · simp [TokenCounter.empty, TokenCounter.track, TokenCounter.lookup, TokenUsage.add]

theorem token_counter_track_spec_witness :
    (TokenCounter.empty.lookup "A" = none →
      (TokenCounter.empty.track "A" "m" 7 3).lookup "A" = some ⟨7, 3, 7 + 3⟩) ∧
    (∀ u, TokenCounter.empty.lookup "A" = some u →
      (TokenCounter.empty.track "A" "m" 7 3).lookup "A" = some (u.add 7 3)) ∧
    (TokenCounter.empty.track "A" "m" 7 3).total_usage =
      TokenCounter.empty.total_usage.add 7 3 ∧
    ((TokenCounter.empty.track "A" "m" 100 50).track "A" "m" 10 5).lookup "A" =
      some ⟨110, 55, 165⟩ :=
  token_counter_track_spec TokenCounter.empty "A" "m" 7 3

/-- C5: the cache fingerprint is a pure function of the key parts alone
(`Cache.get_cache_key` takes no clock or randomness input, so repeated
computation is trivially stable); canonicalization by sorted parameter
names makes it invariant under permuting the keyword-style key parts, for
any keyword lists with distinct parameter names. -/
theorem cache_fingerprint_canonical (args : List String)
    (kw1 kw2 : List (String × String)) (hperm : kw1.Perm kw2)
    (hnd : (kw1.map Prod.fst).Nodup) :
    Cache.get_cache_key args kw1 = Cache.get_cache_key args kw2 := by
  have hs : sortByKey kw1 = sortByKey kw2 := by
    apply sorted_perm_nodupkeys_eq
    · exact (List.perm_insertionSort keyLe kw1).trans
        (hperm.trans (List.perm_insertionSort keyLe kw2).symm)
    · exact List.sorted_insertionSort keyLe kw1
    · exact List.sorted_insertionSort keyLe kw2
    · exact (((List.perm_insertionSort keyLe kw1).map Prod.fst).nodup_iff).mpr hnd
  simp only [Cache.get_cache_key]
  rw [hs]

theorem cache_fingerprint_canonical_witness :
    Cache.get_cache_key [] [("agent_name", "A"), ("prompt", "p"), ("context", "c")] =
      Cache.get_cache_key [] [("context", "c"), ("agent_name", "A"), ("prompt", "p")] :=
  cache_fingerprint_canonical []
    [("agent_name", "A"), ("prompt", "p"), ("context", "c")]
    [("context", "c"), ("agent_name", "A"), ("prompt", "p")]
    (by decide) (by decide)

/-- A record at the head of the store is returned by `get` while its age
does not exceed the TTL. -/
theorem cache_get_head_fresh {α : Type} (ttl : Nat) (t0 t1 : Int) (v : α)
    (rest : CacheState α) (args : List String) (kw : List (String × String))
    (hts : ¬ (t1 - t0 > (ttl : Int))) :
    Cache.get ttl t1 ((Cache.get_cache_key args kw, t0, v) :: rest) args kw =
      (some v, (Cache.get_cache_key args kw, t0, v) :: rest) := by
  simp [Cache.get, hts]

/-- C6: immediately after `set(v, k)`, `get(k)` returns `v`; and once the
entry's age exceeds the TTL, `get(k)` returns `none` and deletes the
expired record from the store as a side effect (lazy eviction). -/
theorem cache_set_get_roundtrip_and_expiry {α : Type} (ttl : Nat) (t0 t1 : Int)
    (st st1 : CacheState α) (v : α) (args : List String)
    (kw : List (String × String))
    (hset : Cache.set true t0 st v args kw = .ok st1) :
    (Cache.get ttl t0 st1 args kw).1 = some v ∧
      (t1 - t0 > (ttl : Int) →
        (Cache.get ttl t1 st1 args kw).1 = none ∧
          ∀ e ∈ (Cache.get ttl t1 st1 args kw).2,
            e.1 ≠ Cache.get_cache_key args kw) := by
  have hst1 : st1 =
      (Cache.get_cache_key args kw, t0, v) ::
        st.filter (fun p => p.1 != Cache.get_cache_key args kw) :=
    (Except.ok.inj hset).symm
  subst hst1
  constructor
  · have hfresh : ¬ ((t0 : Int) - t0 > (ttl : Int)) := by omega
    rw [cache_get_head_fresh ttl t0 t0 v _ args kw hfresh]
  · intro hexp
    have hget : Cache.get ttl t1
        ((Cache.get_cache_key args kw, t0, v) ::
          st.filter (fun p => p.1 != Cache.get_cache_key args kw)) args kw =
        (none,
          ((Cache.get_cache_key args kw, t0, v) ::
            st.filter (fun p => p.1 != Cache.get_cache_key args kw)).filter
              (fun p => p.1 != Cache.get_cache_key args kw)) := by
      simp [Cache.get, hexp]
    rw [hget]
    refine ⟨rfl, ?_⟩
    intro e he
    have hmem := List.of_mem_filter he
    simpa using hmem

theorem cache_set_get_roundtrip_and_expiry_witness :
    (Cache.get 24 0 [(Cache.get_cache_key [] [("k", "w")], 0, 5)] []
        [("k", "w")]).1 = some 5 ∧
      ((25 : Int) - 0 > ((24 : Nat) : Int) →
        (Cache.get 24 25 [(Cache.get_cache_key [] [("k", "w")], 0, 5)] []
            [("k", "w")]).1 = none ∧
          ∀ e ∈ (Cache.get 24 25 [(Cache.get_cache_key [] [("k", "w")], 0, 5)] []
              [("k", "w")]).2,
            e.1 ≠ Cache.get_cache_key [] [("k", "w")]) :=
  cache_set_get_roundtrip_and_expiry 24 0 25 []
    [(Cache.get_cache_key [] [("k", "w")], 0, 5)] 5 [] [("k", "w")] rfl

/-- C3: with caching enabled and a cache present, after a prior `invoke`
that actually called the service (`calls ≠ 0`) and returned
`(t, i, o)` successfully, a later `invoke` with the same
(caller identity, prompt, context) and `use_cache = true`, within the
TTL, returns the cached text with token counts `(0, 0)`, leaves the store
unchanged, and performs no external service call (`calls = 0`),
whatever the service would now do. -/
theorem invoke_cache_hit_zero_cost (ttl : Nat) (t0 t1 : Int) (mr rd : Nat)
    (st : CacheState CachedResponse) (name role prompt context : String)
    (svc1 svc2 : String → Nat → ApiOutcome) (t : String) (i o : Nat)
    (h1 : (invoke ⟨true, true, ttl, t0, mr, rd⟩ st name role prompt context true
        svc1).result = .ok (t, i, o))
    (hc : (invoke ⟨true, true, ttl, t0, mr, rd⟩ st name role prompt context true
        svc1).calls ≠ 0)
    (hts : t1 - t0 ≤ (ttl : Int)) :
    invoke ⟨true, true, ttl, t1, mr, rd⟩
        (invoke ⟨true, true, ttl, t0, mr, rd⟩ st name role prompt context true
          svc1).state
        name role prompt context true svc2 =
      ⟨(invoke ⟨true, true, ttl, t0, mr, rd⟩ st name role prompt context true
          svc1).state,
        .ok (t, 0, 0), 0⟩ := by
  rcases hget : Cache.get ttl t0 st [] (cacheKwargs name prompt context) with ⟨ov, st1⟩
  simp only [invoke, hget, Bool.and_self, eq_self_iff_true, if_true] at h1 hc ⊢
  cases ov with
  | some c => simp at hc
  | none =>
    rcases hretry : (callApiWithRetry (svc1 (build_prompt role prompt context)) mr rd).outcome
      with e | ⟨t2, i2, o2⟩
    · rw [hretry] at h1
      simp at h1
    · rw [hretry] at h1
      simp only [Cache.set, eq_self_iff_true, if_true] at h1 ⊢
      obtain ⟨rfl, rfl, rfl⟩ : t2 = t ∧ i2 = i ∧ o2 = o := by
        simpa using h1
      have hts2 : ¬ (t1 - t0 > (ttl : Int)) := by omega
      rw [cache_get_head_fresh ttl t0 t1
        ({ text := t2, input_tokens := i2, output_tokens := o2 } : CachedResponse) _ []
        (cacheKwargs name prompt context) hts2]

theorem invoke_cache_hit_zero_cost_witness :
    invoke ⟨true, true, 24, 1, 3, 2⟩
        (invoke ⟨true, true, 24, 0, 3, 2⟩ [] "A" "r" "p" "c" true
          (fun _ _ => ApiOutcome.success "hello" 5 7)).state
        "A" "r" "p" "c" true (fun _ _ => ApiOutcome.terminal) =
      ⟨(invoke ⟨true, true, 24, 0, 3, 2⟩ [] "A" "r" "p" "c" true
          (fun _ _ => ApiOutcome.success "hello" 5 7)).state,
        .ok ("hello", 0, 0), 0⟩ :=
  invoke_cache_hit_zero_cost 24 0 1 3 2 [] "A" "r" "p" "c"
    (fun _ _ => ApiOutcome.success "hello" 5 7) (fun _ _ => ApiOutcome.terminal)
    "hello" 5 7 rfl (by decide) (by norm_num)

/-- Work descriptors of a concrete three-company phase-2 run. -/
def cexDocs : List Json :=
  [.obj [("company", .str "Alpha")], .obj [("company", .str "Beta")],
   .obj [("company", .str "Gamma")]]

/-- Service oracle for that run: workers 1 and 3 respond with decodable
JSON; worker 2's external call raises a terminal service error. -/
def cexSvc : Nat → String → Nat → ApiOutcome := fun idx _ _ =>
  if idx = 1 then ApiOutcome.terminal
  else
    ApiOutcome.success
      "\x7b\"gen_ai_mentions\": 1, \"ml_mentions\": 2, \"capex_ai\": \"x\", \"cfo_quote\": \"q\", \"key_insights\": \"k\"\x7d"
      10 5

/-- Configuration of that run: caching disabled (orthogonal to fan-out
isolation), default retry settings. -/
def cexCfg : AgentConfig := ⟨false, true, 24, 0, 3, 2⟩

/-- C1 counterexample: a phase-2 run over 3 work descriptors in which
item 2's worker raises a terminal service error does NOT produce a
3-entry aggregate with an error placeholder for item 2 — the loop in
`_phase_2_analyze_companies` has no exception handling, so the error
propagates and aborts the run (and item 3's worker is never invoked:
only 2 service calls happen). -/
theorem phase2_terminal_abort_cex :
    (phase_2_analyze_companies cexCfg cexSvc cexDocs [] TokenCounter.empty).result =
        .error .terminal ∧
      (phase_2_analyze_companies cexCfg cexSvc cexDocs [] TokenCounter.empty).calls = 2 :=
  ⟨rfl, rfl⟩

/-- C1 (amended): in a phase-2 run over 3 work descriptors where item 1's
worker succeeds (its response merely undecodable, which is handled
locally) and item 2's worker raises a terminal service error on every
attempt, the orchestrator produces no aggregate at all: the terminal
error propagates out of phase 2, and item 3's worker is never invoked
(exactly 2 external calls are made).  Only decode failures yield error
placeholders; a terminal service error in one worker aborts the run. -/
theorem phase2_terminal_error_aborts_run (c0 c1 c2 : String)
    (svc : Nat → String → Nat → ApiOutcome) (t : String) (i o : Nat)
    (ttl : Nat) (now : Int) (rd mr : Nat) (hmr : 1 ≤ mr)
    (st : CacheState CachedResponse) (tc : TokenCounter)
    (h0 : ∀ p n, svc 0 p n = ApiOutcome.success t i o)
    (hj0 : extract_json t = none)
    (h1 : ∀ p n, svc 1 p n = ApiOutcome.terminal) :
    (phase_2_analyze_companies ⟨false, true, ttl, now, mr, rd⟩ svc
        [.obj [("company", .str c0)], .obj [("company", .str c1)],
         .obj [("company", .str c2)]] st tc).result = .error .terminal ∧
      (phase_2_analyze_companies ⟨false, true, ttl, now, mr, rd⟩ svc
        [.obj [("company", .str c0)], .obj [("company", .str c1)],
         .obj [("company", .str c2)]] st tc).calls = 2 := by
  cases mr with
  | zero => omega
  | succ k =>
    simp [phase_2_analyze_companies, phase2Go, analyze_documents, invoke,
      callApiWithRetry, callApiRetryAux, h0, h1, hj0, Json.render,
      Bool.and_false, Except.map]

theorem phase2_terminal_error_aborts_run_witness :
    (phase_2_analyze_companies ⟨false, true, 24, 0, 3, 2⟩
        (fun idx _ _ => if idx = 1 then ApiOutcome.terminal
          else ApiOutcome.success "no structured output" 10 5)
        [.obj [("company", .str "Alpha")], .obj [("company", .str "Beta")],
         .obj [("company", .str "Gamma")]] [] TokenCounter.empty).result =
        .error .terminal ∧
      (phase_2_analyze_companies ⟨false, true, 24, 0, 3, 2⟩
        (fun idx _ _ => if idx = 1 then ApiOutcome.terminal
          else ApiOutcome.success "no structured output" 10 5)
        [.obj [("company", .str "Alpha")], .obj [("company", .str "Beta")],
         .obj [("company", .str "Gamma")]] [] TokenCounter.empty).calls = 2 :=
  phase2_terminal_error_aborts_run "Alpha" "Beta" "Gamma"
    (fun idx _ _ => if idx = 1 then ApiOutcome.terminal
      else ApiOutcome.success "no structured output" 10 5)
    "no structured output" 10 5 24 0 2 3 (by omega) [] TokenCounter.empty
    (fun _ _ => rfl) rfl (fun _ _ => rfl)

/-- C4 counterexample: with caching enabled, a successful external call
followed by a failing cache-file write does NOT return the successful
triple — `Cache.set` has no exception handling and `invoke` does not
guard the `self.cache.set` call, so the storage error propagates and the
invocation fails. -/
theorem invoke_write_failure_cex :
    (invoke ⟨true, false, 24, 0, 3, 2⟩ [] "A" "r" "p" "c" true
        (fun _ _ => ApiOutcome.success "ok" 5 7)).result = .error .ioError ∧
      (invoke ⟨true, false, 24, 0, 3, 2⟩ [] "A" "r" "p" "c" true
        (fun _ _ => ApiOutcome.success "ok" 5 7)).result ≠ .ok ("ok", 5, 7) :=
  ⟨rfl, by decide⟩

/-- C4 (amended): when the external call succeeds on its first attempt
but the cache write fails, the write is not retried and the service call
is not repeated (exactly one call is made), but the storage error is not
swallowed either: `invoke` raises it to its caller instead of returning
the successful `(text, inputTokens, outputTokens)`. -/
theorem invoke_write_failure_propagates (ttl : Nat) (now : Int) (rd mr : Nat)
    (hmr : 1 ≤ mr) (st : CacheState CachedResponse)
    (name role prompt context : String) (svc : String → Nat → ApiOutcome)
    (t : String) (i o : Nat)
    (hmiss : (Cache.get ttl now st [] (cacheKwargs name prompt context)).1 = none)
    (hsvc : svc (build_prompt role prompt context) 0 = ApiOutcome.success t i o) :
    (invoke ⟨true, false, ttl, now, mr, rd⟩ st name role prompt context true
        svc).result = .error .ioError ∧
      (invoke ⟨true, false, ttl, now, mr, rd⟩ st name role prompt context true
        svc).calls = 1 := by
  rcases hget : Cache.get ttl now st [] (cacheKwargs name prompt context) with ⟨ov, st1⟩
  rw [hget] at hmiss
  cases mr with
  | zero => omega
  | succ k =>
    cases ov with
    | some c => simp at hmiss
    | none =>
      simp [invoke, hget, callApiWithRetry, callApiRetryAux, hsvc, Cache.set]

theorem invoke_write_failure_propagates_witness :
    (invoke ⟨true, false, 24, 0, 3, 2⟩ [] "A" "r" "p" "c" true
        (fun _ _ => ApiOutcome.success "hello" 5 7)).result = .error .ioError ∧
      (invoke ⟨true, false, 24, 0, 3, 2⟩ [] "A" "r" "p" "c" true
        (fun _ _ => ApiOutcome.success "hello" 5 7)).calls = 1 :=
  invoke_write_failure_propagates 24 0 2 3 (by omega) [] "A" "r" "p" "c"
    (fun _ _ => ApiOutcome.success "hello" 5 7) "hello" 5 7 rfl rfl

/-- C8: in a phase-1 run whose locator response cannot be decoded as
structured JSON (while the external call itself succeeded), the run is
not aborted: `locate_documents` substitutes the deterministic default
descriptor for every requested company, yielding one descriptor per
company, each carrying that company's name in its `company` field. -/
theorem phase1_decode_failure_defaults (companies : List String)
    (svc : String → Nat → ApiOutcome) (t : String) (i o : Nat)
    (ttl : Nat) (now : Int) (rd mr : Nat) (hmr : 1 ≤ mr)
    (st : CacheState CachedResponse)
    (hsvc : ∀ p n, svc p n = ApiOutcome.success t i o)
    (hj : extract_json t = none) :
    (locate_documents ⟨false, true, ttl, now, mr, rd⟩ st companies svc).result =
        .ok (Json.arr (companies.map default_descriptor), i, o) ∧
      (companies.map default_descriptor).length = companies.length ∧
      ∀ k (hk : k < (companies.map default_descriptor).length)
        (hk2 : k < companies.length),
        jsonField ((companies.map default_descriptor).get ⟨k, hk⟩) "company" =
          some (.str (companies.get ⟨k, hk2⟩)) := by
  refine ⟨?_, by simp, ?_⟩
  · cases mr with
    | zero => omega
    | succ q =>
      simp [locate_documents, invoke, callApiWithRetry, callApiRetryAux, hsvc, hj,
        Bool.and_false]
  · intro k hk hk2
    simp [jsonField, default_descriptor]

theorem phase1_decode_failure_defaults_witness :
    (locate_documents ⟨false, true, 24, 0, 3, 2⟩ [] ["Acme", "Globex"]
        (fun _ _ => ApiOutcome.success "no structured output" 3 4)).result =
        .ok (Json.arr (["Acme", "Globex"].map default_descriptor), 3, 4) ∧
      (["Acme", "Globex"].map default_descriptor).length = ["Acme", "Globex"].length ∧
      ∀ k (hk : k < (["Acme", "Globex"].map default_descriptor).length)
        (hk2 : k < ["Acme", "Globex"].length),
        jsonField ((["Acme", "Globex"].map default_descriptor).get ⟨k, hk⟩) "company" =
          some (.str (["Acme", "Globex"].get ⟨k, hk2⟩)) :=
  phase1_decode_failure_defaults ["Acme", "Globex"]
    (fun _ _ => ApiOutcome.success "no structured output" 3 4)
    "no structured output" 3 4 24 0 2 3 (by omega) []
    (fun _ _ => rfl) rfl

/-- C9: a phase-2 analyzer worker whose successful response cannot be
decoded as structured JSON still returns a complete analysis result for
its item without raising: its numeric fields are zeroed and its text
fields carry the designated error placeholders ("Error in analysis" /
"Analysis failed").  The result is `.ok`, so the orchestrator loop
appends it like any other and sibling analyses are unaffected. -/
theorem analyzer_decode_failure_placeholder (company : String)
    (document_urls : List (String × Json)) (svc : String → Nat → ApiOutcome)
    (t : String) (i o : Nat) (ttl : Nat) (now : Int) (rd mr : Nat) (hmr : 1 ≤ mr)
    (st : CacheState CachedResponse)
    (hsvc : ∀ p n, svc p n = ApiOutcome.success t i o)
    (hj : extract_json t = none) :
    (analyze_documents ⟨false, true, ttl, now, mr, rd⟩ st company document_urls
        none svc).result =
      .ok ({ company := company,
             gen_ai_mentions := .num 0,
             ml_mentions := .num 0,
             capex_ai := .str "Error in analysis",
             cfo_quote := .str "Error in analysis",
             key_insights := .str "Analysis failed",
             documents_analyzed :=
               [jsonGetD document_urls "tenk_url" (.str ""),
                jsonGetD document_urls "earnings_transcript_url" (.str "")] },
           i, o) := by
  cases mr with
  | zero => omega
  | succ q =>
    simp [analyze_documents, invoke, callApiWithRetry, callApiRetryAux, hsvc, hj,
      Bool.and_false, mkAnalysis, errorData, jsonGetD]

theorem analyzer_decode_failure_placeholder_witness :
    (analyze_documents ⟨false, true, 24, 0, 3, 2⟩ [] "Acme"
        [("tenk_url", .str "https://example.com/10k")] none
        (fun _ _ => ApiOutcome.success "no structured output" 9 6)).result =
      .ok ({ company := "Acme",
             gen_ai_mentions := .num 0,
             ml_mentions := .num 0,
             capex_ai := .str "Error in analysis",
             cfo_quote := .str "Error in analysis",
             key_insights := .str "Analysis failed",
             documents_analyzed :=
               [jsonGetD [("tenk_url", .str "https://example.com/10k")] "tenk_url"
                  (.str ""),
                jsonGetD [("tenk_url", .str "https://example.com/10k")]
                  "earnings_transcript_url" (.str "")] },
           9, 6) :=
  analyzer_decode_failure_placeholder "Acme"
    [("tenk_url", .str "https://example.com/10k")]
    (fun _ _ => ApiOutcome.success "no structured output" 9 6)
    "no structured output" 9 6 24 0 2 3 (by omega) [] (fun _ _ => rfl) rfl
